import Mathlib

/-!
Verification development for the bhqueue mobile client.

Part 1 embeds the Zustand queue store (`frontend/src/store/queueStore.ts`):
each async store action is modelled as a pure function from the store state
and the server outcome (an `Except` value standing for the awaited network
call) to the new store state, together with flags recording whether a
network request was issued and what the action returned.  The single-threaded
JS event loop means each action's synchronous prefix (everything before its
first `await`) runs atomically; concurrency claims are settled by composing
those prefixes explicitly.

Part 2 embeds the `LocationAcquisition` React component as a small-step
event machine.  React closure semantics are modelled faithfully: the
`watchPositionAsync` callback and the `setTimeout` handlers are created in
the render in which the effect ran, so the `bestLocation` state variable
they read is the value captured at that render (`capturedBest`), while
`setBestLocation` writes the live state (`bestLocation`) visible to later
renders.  Refs (`watchRef`, `timeoutRef`, `startTimeRef`) are live mutable
cells and are modelled as ordinary mutable fields.

Part 3 models the haversine `getDistanceMeters` over the real numbers.
-/

namespace BHQueue

/-! ## Part 1: data model of the queue store (queueStore.ts) -/

/-- Spatial marker reference data (`SpatialMarker` in services/api). -/
structure SpatialMarker where
  id : Nat
  name : String
  typicalWaitMinutes : Option Nat
  displayOrder : Int
  deriving DecidableEq

/-- A queue session as stored by the client (`QueueSession` in services/api).
`result` is `some "admitted"` or `some "rejected"` once terminal. -/
structure QueueSession where
  id : Nat
  queueType : String
  nearestMarkerId : Option Nat
  result : Option String
  deriving DecidableEq

/-- Club status payload (fields of `ClubStatus` not used by any claim are
elided; the field participates in frame conditions only). -/
structure ClubStatus where
  isOpen : Bool
  phase : String
  deriving DecidableEq

/-- Queue status payload (`QueueStatusResponse`). -/
structure QueueStatusResponse where
  estimatedWaitMinutes : Option Nat
  confidence : String
  deriving DecidableEq

/-- The full state of the queue store (`QueueState` in queueStore.ts).
`lastUpdated` is an abstract timestamp. -/
structure QueueState where
  clubStatus : Option ClubStatus
  queueStatus : Option QueueStatusResponse
  markers : List SpatialMarker
  isLoading : Bool
  isJoining : Bool
  isSubmitting : Bool
  error : Option String
  lastUpdated : Option Nat
  session : Option QueueSession
  currentMarker : Option SpatialMarker
  deriving DecidableEq

/-- The store's initial state (the object literal passed to `create`). -/
def initialState : QueueState :=
  { clubStatus := none, queueStatus := none, markers := [],
    isLoading := false, isJoining := false, isSubmitting := false,
    error := none, lastUpdated := none, session := none, currentMarker := none }

/-- JS `error.response?.data?.detail || fallback`: the detail string when
present and non-empty (JS truthiness), the fallback otherwise. -/
def errMsg (fallback : String) : Option String → String
  | some d => if d = "" then fallback else d
  | none => fallback

/-- Synchronous prefix of `joinQueue` up to its `await`: runs
`set({ isJoining: true, error: null })` and then unconditionally issues the
network request `apiJoinQueue(...)`.  The returned number counts network
requests issued by this prefix; the source contains no check of `isJoining`
before the call, so it is always 1. -/
def joinQueueStart (s : QueueState) : QueueState × Nat :=
  ({ s with isJoining := true, error := none }, 1)

/-- Continuation of `joinQueue` after the awaited network call resolves.
On success the session is stored, `currentMarker` is pre-selected by
looking up `session.nearest_marker_id` in the fetched markers, and the
function returns `true`.  On failure only `error` and `isJoining` are set
and it returns `false`. -/
def joinQueueResume (s : QueueState) :
    Except (Option String) QueueSession → QueueState × Bool
  | Except.ok sess =>
      let cm : Option SpatialMarker :=
        match sess.nearestMarkerId with
        | some mid => s.markers.find? (fun m => m.id == mid)
        | none => none
      ({ s with session := some sess, currentMarker := cm, isJoining := false }, true)
  | Except.error d =>
      ({ s with error := some (errMsg "Failed to join queue" d), isJoining := false }, false)

/-- One complete `joinQueue` call run in isolation, given the server
outcome of the awaited request. -/
def joinQueue (s : QueueState) (outcome : Except (Option String) QueueSession) :
    QueueState × Bool :=
  joinQueueResume (joinQueueStart s).1 outcome

/-- Two concurrent `joinQueue` invocations on the single-threaded event
loop: the second starts while the first is suspended at its `await`
(`isJoining` is already `true`).  Returns the total number of network join
requests issued by the two synchronous prefixes. -/
def twoConcurrentJoinRequests (s : QueueState) : Nat :=
  let p1 := joinQueueStart s
  let p2 := joinQueueStart p1.1
  p1.2 + p2.2

/-- One complete `submitCheckpoint` call.  The triple returned is
(new state, `waitMinutes` result, whether a network request was issued).
The guard `if (!session || session.result) return { waitMinutes: null }`
short-circuits before any `set` and before the network call. -/
def submitCheckpoint (s : QueueState) (marker : SpatialMarker)
    (outcome : Except (Option String) (Option Nat)) :
    QueueState × Option Nat × Bool :=
  match s.session with
  | none => (s, none, false)
  | some sess =>
    if sess.result.isSome then (s, none, false)
    else
      let s1 := { s with isSubmitting := true }
      match outcome with
      | Except.ok waitMinutes =>
          ({ s1 with currentMarker := some marker, isSubmitting := false },
           waitMinutes, true)
      | Except.error d =>
          ({ s1 with error := some (errMsg "Failed to submit checkpoint" d),
                     isSubmitting := false }, none, true)

/-- One complete `submitResult` call.  The source performs no session or
terminal check: it runs `set({ isSubmitting: true, error: null })` and then
always issues the network call (second component `true`).  On success it
clears `session` and `currentMarker`; on failure it sets `error`. -/
def submitResult (s : QueueState) :
    Except (Option String) Unit → QueueState × Bool
  | Except.ok _ =>
      ({ s with error := none, session := none, currentMarker := none,
                isSubmitting := false }, true)
  | Except.error d =>
      ({ s with error := some (errMsg "Failed to submit result" d),
                isSubmitting := false }, true)

/-- One complete `leaveQueue` call.  The local clear of `session` and
`currentMarker` happens after the `await`, inside the `try` block, so it is
reached only when the server call succeeds; the `catch` branch only sets
`error`.  The network request is issued unconditionally (second component). -/
def leaveQueue (s : QueueState) :
    Except (Option String) Unit → QueueState × Bool
  | Except.ok _ =>
      ({ s with error := none, session := none, currentMarker := none,
                isSubmitting := false }, true)
  | Except.error d =>
      ({ s with error := some (errMsg "Failed to leave queue" d),
                isSubmitting := false }, true)

/-- The QueueScreen periodic position reporter effect: its body returns
early (`if (!locationPermission || !session) return`) so the 2-minute
interval is running iff location permission is granted and a session object
exists in the store. -/
def reporterActive (locationPermission : Bool) (s : QueueState) : Bool :=
  locationPermission && s.session.isSome

/-! Concrete store fixtures used by counterexamples and witnesses. -/

/-- An active (non-terminal) session fixture. -/
def sessionActive : QueueSession :=
  { id := 2, queueType := "main", nearestMarkerId := some 7, result := none }

/-- A terminal session fixture (result already set). -/
def sessionDone : QueueSession :=
  { id := 3, queueType := "main", nearestMarkerId := none, result := some "admitted" }

/-- A marker fixture. -/
def marker0 : SpatialMarker :=
  { id := 7, name := "Bridge", typicalWaitMinutes := some 10, displayOrder := 1 }

/-- Store state holding an active session. -/
def stateActive : QueueState := { initialState with session := some sessionActive }

/-- Store state holding a terminal session. -/
def stateDone : QueueState := { initialState with session := some sessionDone }

/-- Store state after the session has been cleared, with a stale error
banner still displayed. -/
def stateCleared : QueueState := { initialState with error := some "old error" }

/-! ## Store theorems -/

/-- C4 counterexample: two concurrent `joinQueue` invocations issue two
network join requests, not one — and even a call started while `isJoining`
is already `true` issues its request, because the function body never reads
the flag. -/
theorem concurrent_join_issues_two_requests :
    twoConcurrentJoinRequests initialState = 2 ∧
    (joinQueueStart { initialState with isJoining := true }).2 = 1 :=
  ⟨rfl, rfl⟩

/-- C4 amended: `joinQueue` sets `isJoining` (the UI uses it to disable the
join button) but does not itself check it before issuing the network
request; from every store state, each of two concurrent calls issues its
own request, so two overlapping calls produce exactly two network join
requests. -/
theorem joinQueue_unguarded_request_count :
    ∀ s : QueueState, (joinQueueStart s).2 = 1 ∧ twoConcurrentJoinRequests s = 2 := by
  intro s
  exact ⟨rfl, rfl⟩

/-- C5 counterexample: calling `submitResult` when the local session has
already been cleared (terminal) is not a no-op — a network call is issued
and the store state changes (the stale error banner is cleared). -/
theorem submitResult_terminal_not_noop :
    (submitResult stateCleared (Except.ok ())).2 = true ∧
    (submitResult stateCleared (Except.ok ())).1 ≠ stateCleared :=
  ⟨rfl, by decide⟩

/-- C5 amended: `submitResult` performs no terminal-session check: from
every state it issues the network call (even when the session is already
cleared or terminal) and clears `error`.  On success it sets `session` and
`currentMarker` to `none` and the reporter stays stopped, so repeating a
successful `submitResult` leaves the resulting store state fixed — but each
repetition issues another network request. -/
theorem submitResult_always_requests_state_idempotent :
    ∀ (s : QueueState) (o : Except (Option String) Unit) (p : Bool),
      (submitResult s o).2 = true ∧
      ((submitResult s (Except.ok ())).1).session = none ∧
      ((submitResult s (Except.ok ())).1).currentMarker = none ∧
      reporterActive p ((submitResult s (Except.ok ())).1) = false ∧
      (submitResult ((submitResult s (Except.ok ())).1) (Except.ok ())).1 =
        (submitResult s (Except.ok ())).1 := by
  intro s o p
  refine ⟨?_, rfl, rfl, ?_, rfl⟩
  · cases o <;> rfl
  · simp [reporterActive, submitResult]

/-- C6 counterexample: when the server `leaveQueue` call fails, the local
session is not cleared (the clear is inside the `try` after the `await`,
not optimistic) and the periodic reporter keeps running. -/
theorem leaveQueue_failure_keeps_session :
    ((leaveQueue stateActive (Except.error (some "server down"))).1).session =
      some sessionActive ∧
    reporterActive true ((leaveQueue stateActive (Except.error (some "server down"))).1) =
      true :=
  ⟨rfl, rfl⟩

/-- C6 amended: `leaveQueue` always issues the server call; on success it
clears `session` and `currentMarker` (stopping the reporter), but on
failure it only surfaces the error and leaves the session in place — the
local clear is contingent on server success, not optimistic. -/
theorem leaveQueue_clears_only_on_success :
    ∀ (s : QueueState) (d : Option String) (p : Bool),
      (leaveQueue s (Except.ok ())).1 =
        { s with error := none, session := none, currentMarker := none,
                 isSubmitting := false } ∧
      (leaveQueue s (Except.ok ())).2 = true ∧
      reporterActive p ((leaveQueue s (Except.ok ())).1) = false ∧
      (leaveQueue s (Except.error d)).1 =
        { s with error := some (errMsg "Failed to leave queue" d),
                 isSubmitting := false } ∧
      (leaveQueue s (Except.error d)).2 = true := by
  intro s d p
  refine ⟨rfl, rfl, ?_, rfl, rfl⟩
  simp [reporterActive, leaveQueue]

/-- C7: `submitCheckpoint` is a no-op returning no estimate when there is
no session or the session is terminal (no state change, no network call);
on server success it updates `currentMarker` to the confirmed marker and
returns the server's wait estimate, leaving the session untouched; on
server failure it leaves `session` and `currentMarker` unchanged and
surfaces an error. -/
theorem submitCheckpoint_spec :
    (∀ (s : QueueState) (m : SpatialMarker) (o : Except (Option String) (Option Nat)),
        s.session = none → submitCheckpoint s m o = (s, none, false)) ∧
    (∀ (s : QueueState) (m : SpatialMarker) (o : Except (Option String) (Option Nat))
        (sess : QueueSession), s.session = some sess → sess.result.isSome = true →
        submitCheckpoint s m o = (s, none, false)) ∧
    (∀ (s : QueueState) (m : SpatialMarker) (w : Option Nat) (sess : QueueSession),
        s.session = some sess → sess.result = none →
        submitCheckpoint s m (Except.ok w) =
          ({ s with currentMarker := some m, isSubmitting := false }, w, true)) ∧
    (∀ (s : QueueState) (m : SpatialMarker) (d : Option String) (sess : QueueSession),
        s.session = some sess → sess.result = none →
        submitCheckpoint s m (Except.error d) =
          ({ s with error := some (errMsg "Failed to submit checkpoint" d),
                    isSubmitting := false }, none, true)) := by
  refine ⟨?_, ?_, ?_, ?_⟩
  · intro s m o h
    simp [submitCheckpoint, h]
  · intro s m o sess h hr
    simp [submitCheckpoint, h, hr]
  · intro s m w sess h hr
    simp [submitCheckpoint, h, hr]
  · intro s m d sess h hr
    simp [submitCheckpoint, h, hr]

/-- C7 witness: the four branches of `submitCheckpoint_spec` evaluated at
concrete store states. -/
theorem submitCheckpoint_spec_witness :
    submitCheckpoint initialState marker0 (Except.ok (some 12)) =
      (initialState, none, false) ∧
    submitCheckpoint stateDone marker0 (Except.ok (some 12)) =
      (stateDone, none, false) ∧
    submitCheckpoint stateActive marker0 (Except.ok (some 12)) =
      ({ stateActive with currentMarker := some marker0, isSubmitting := false },
       some 12, true) ∧
    submitCheckpoint stateActive marker0 (Except.error (some "boom")) =
      ({ stateActive with
           error := some (errMsg "Failed to submit checkpoint" (some "boom")),
           isSubmitting := false }, none, true) :=
  ⟨submitCheckpoint_spec.1 initialState marker0 (Except.ok (some 12)) rfl,
   submitCheckpoint_spec.2.1 stateDone marker0 (Except.ok (some 12)) sessionDone rfl rfl,
   submitCheckpoint_spec.2.2.1 stateActive marker0 (some 12) sessionActive rfl rfl,
   submitCheckpoint_spec.2.2.2 stateActive marker0 (some "boom") sessionActive rfl rfl⟩

/-- C10: a failed `joinQueue` call is atomic with respect to session state:
for every prior store state the resulting state differs from it only in
`error` (set to the surfaced message) and `isJoining` (reset to `false`);
in particular `session`, `currentMarker` and every other field are
unchanged. -/
theorem joinQueue_failure_frame :
    ∀ (s : QueueState) (d : Option String),
      (joinQueue s (Except.error d)).1 =
        { s with error := some (errMsg "Failed to join queue" d),
                 isJoining := false } := by
  intro s d
  rfl

/-! ## Part 2: the LocationAcquisition component (LocationAcquisition.tsx)

The component is embedded as an event machine over rational timestamps and
accuracies.  UI-only state (`message`, `currentAccuracy` and the style
sheet) is omitted; everything the handlers branch on is kept.  `onError`
invocations are recorded as structured `AcqError` values carrying the same
data the source interpolates into its message strings.  The distance to the
venue anchor is a parameter `dist` of the model standing for
`getDistanceMeters(lat, lon, BERGHAIN_LAT, BERGHAIN_LNG)`; the haversine
formula itself is modelled over the reals in Part 3. -/

/-- Accuracy target for immediate finalization (meters). -/
def TARGET_ACCURACY : ℚ := 15

/-- Minimum acceptable accuracy at the max-wait timeout (meters). -/
def ACCEPTABLE_ACCURACY : ℚ := 30

/-- Maximum acquisition time (milliseconds, an integer as produced by
`Date.now()` arithmetic). -/
def MAX_WAIT_TIME : ℤ := 30000

/-- Minimum spinner time before finalizing (milliseconds); the spec calls
this `minDurationMs`. -/
def MIN_SPINNER_TIME : ℤ := 3000

/-- Geofence radius around the venue anchor (meters). -/
def MAX_DISTANCE_METERS : ℚ := 500

/-- A GPS sample (`LocationResult` in the source). -/
structure LocationResult where
  latitude : ℚ
  longitude : ℚ
  accuracy : ℚ
  deriving DecidableEq

/-- Component status (`useState<'acquiring' | 'validating' | 'success' | 'error'>`). -/
inductive Status where
  | acquiring
  | validating
  | success
  | error
  deriving DecidableEq

/-- Structured rendering of the `onError(...)` invocations of the source. -/
inductive AcqError where
  | outOfGeofence (distance : ℚ)
  | accuracyInsufficient (accuracy : ℚ)
  | noFix
  deriving DecidableEq

/-- Component state during one acquisition attempt.  `bestLocation` is the
live React state written by `setBestLocation`; `capturedBest` is the value
of the `bestLocation` variable captured by the closures created when
`startLocationAcquisition` ran (the watch callback and both timers read
this captured value, never the live one).  `watchActive` models
`watchRef.current !== null`, `maxWaitTimerActive` models the timer stored
in `timeoutRef`.  `finishCount` counts invocations of `finishWithLocation`
and `errorsEmitted` records `onError` calls, for stating the temporal
claims. -/
structure AcqState where
  status : Status
  bestLocation : Option LocationResult
  capturedBest : Option LocationResult
  watchActive : Bool
  maxWaitTimerActive : Bool
  finishCount : Nat
  errorsEmitted : List AcqError
  deriving DecidableEq

/-- The `cleanup` function: removes the watch subscription and clears the
timer stored in `timeoutRef` (the max-wait timer).  Deferred finalize
timers created by `setTimeout` in the watch callback are not stored in
`timeoutRef` and are therefore untouched. -/
def cleanup (c : AcqState) : AcqState :=
  { c with watchActive := false, maxWaitTimerActive := false }

/-- The `finishWithLocation` function: calls `cleanup`, enters
`validating`, computes the distance to the venue anchor, and either errors
out of the geofence (when validation is not skipped) or succeeds and stores
the location for the Continue button.  `skip` is `SKIP_LOCATION_VALIDATION`
(hard-coded `true` in the source). -/
def finishWithLocation (skip : Bool) (dist : LocationResult → ℚ)
    (c0 : AcqState) (loc : LocationResult) : AcqState :=
  let c := cleanup c0
  let c := { c with status := Status.validating, finishCount := c.finishCount + 1 }
  let d := dist loc
  if !skip && d > MAX_DISTANCE_METERS then
    { c with status := Status.error,
             errorsEmitted := c.errorsEmitted ++ [AcqError.outOfGeofence d] }
  else
    { c with status := Status.success, bestLocation := some loc }

/-- The `watchPositionAsync` callback for a sample arriving at time `now`
(attempt started at `startTime`).  The best-so-far comparison reads the
closure-captured `bestLocation` (`capturedBest`), while the update writes
the live state.  Returns the new state together with any newly scheduled
deferred finalize timers (fire time, captured sample). -/
def watchCallback (skip : Bool) (dist : LocationResult → ℚ)
    (startTime now : ℤ) (c : AcqState) (loc : LocationResult) :
    AcqState × List (ℤ × LocationResult) :=
  let replace :=
    match c.capturedBest with
    | none => true
    | some b => loc.accuracy < b.accuracy
  let c1 := if replace then { c with bestLocation := some loc } else c
  let elapsedTime := now - startTime
  if loc.accuracy ≤ TARGET_ACCURACY ∧ elapsedTime ≥ MIN_SPINNER_TIME then
    (finishWithLocation skip dist c1 loc, [])
  else if loc.accuracy ≤ TARGET_ACCURACY then
    (c1, [(startTime + MIN_SPINNER_TIME, loc)])
  else
    (c1, [])

/-- The max-wait `setTimeout` handler.  The `const best = bestLocation`
line reads the closure-captured state value (`capturedBest`), not the live
`bestLocation`.  Neither error branch calls `cleanup`. -/
def maxWaitHandler (skip : Bool) (dist : LocationResult → ℚ)
    (c : AcqState) : AcqState :=
  match c.capturedBest with
  | some best =>
      if best.accuracy ≤ ACCEPTABLE_ACCURACY then
        finishWithLocation skip dist c best
      else
        { c with status := Status.error,
                 errorsEmitted := c.errorsEmitted ++
                   [AcqError.accuracyInsufficient best.accuracy] }
  | none =>
      { c with status := Status.error,
               errorsEmitted := c.errorsEmitted ++ [AcqError.noFix] }

/-- Events of the attempt: a position sample delivered to the watch
subscription, a deferred finalize timer firing, or the max-wait timer
firing. -/
inductive AcqEvent where
  | sampleEv (loc : LocationResult)
  | deferredEv (loc : LocationResult)
  | maxWaitEv
  deriving DecidableEq

/-- One event dispatch.  A sample reaches the callback only while the
subscription is installed; a deferred finalize timer always runs (cleanup
cannot cancel it); the max-wait timer runs unless it was cleared. -/
def stepEv (skip : Bool) (dist : LocationResult → ℚ) (startTime : ℤ)
    (c : AcqState) (t : ℤ) : AcqEvent → AcqState × List (ℤ × AcqEvent)
  | AcqEvent.sampleEv loc =>
      if c.watchActive then
        let r := watchCallback skip dist startTime t c loc
        (r.1, r.2.map (fun p => (p.1, AcqEvent.deferredEv p.2)))
      else (c, [])
  | AcqEvent.deferredEv loc => (finishWithLocation skip dist c loc, [])
  | AcqEvent.maxWaitEv =>
      if c.maxWaitTimerActive then (maxWaitHandler skip dist c, []) else (c, [])

/-- Inserts a timed event into a chronologically sorted queue, after any
events carrying the same timestamp (FIFO for equal deadlines, matching the
JS timer queue). -/
def insertByTime (ev : ℤ × AcqEvent) :
    List (ℤ × AcqEvent) → List (ℤ × AcqEvent)
  | [] => [ev]
  | e :: rest => if ev.1 < e.1 then ev :: e :: rest else e :: insertByTime ev rest

/-- Runs the event queue to exhaustion (fuel bounds the number of
dispatches; each sample schedules at most one deferred timer, so
`2 * samples + 2` suffices). -/
def runQueue (skip : Bool) (dist : LocationResult → ℚ) (startTime : ℤ) :
    Nat → AcqState → List (ℤ × AcqEvent) → AcqState
  | 0, c, _ => c
  | _ + 1, c, [] => c
  | fuel + 1, c, (t, e) :: rest =>
      let r := stepEv skip dist startTime c t e
      runQueue skip dist startTime fuel r.1
        (r.2.foldl (fun q ev => insertByTime ev q) rest)

/-- Component state right after `startLocationAcquisition` succeeded in
installing the watch and arming the max-wait timer (permission granted):
status `acquiring`, no best location yet, and the closures have captured
the `bestLocation` value of that render (`none`). -/
def initAcq : AcqState :=
  { status := Status.acquiring, bestLocation := none, capturedBest := none,
    watchActive := true, maxWaitTimerActive := true,
    finishCount := 0, errorsEmitted := [] }

/-- One full acquisition attempt starting at time 0: the chronologically
sorted samples are interleaved with the max-wait timer at
`MAX_WAIT_TIME` and the queue is run to exhaustion. -/
def runAcquisition (skip : Bool) (dist : LocationResult → ℚ)
    (samples : List (ℤ × LocationResult)) : AcqState :=
  runQueue skip dist 0 (2 * samples.length + 2) initAcq
    (insertByTime (MAX_WAIT_TIME, AcqEvent.maxWaitEv)
      (samples.map (fun p => (p.1, AcqEvent.sampleEv p.2))))

/-! Concrete samples for the acquisition traces. -/

/-- Sample with 10 m accuracy. -/
def sample10 : LocationResult := { latitude := 52.51, longitude := 13.44, accuracy := 10 }

/-- Sample with 9 m accuracy. -/
def sample9 : LocationResult := { latitude := 52.52, longitude := 13.45, accuracy := 9 }

/-- Sample with 25 m accuracy. -/
def sample25 : LocationResult := { latitude := 52.5107, longitude := 13.443, accuracy := 25 }

/-- Sample with 20 m accuracy. -/
def sample20 : LocationResult := { latitude := 52.5108, longitude := 13.4431, accuracy := 20 }

/-- Sample used by the geofence witness. -/
def geoSample : LocationResult := { latitude := 52.503, longitude := 13.443, accuracy := 8 }

/-- Distance function putting every sample 800 m from the anchor. -/
def dist800 : LocationResult → ℚ := fun _ => 800

/-! ## LocationAcquisition theorems -/

/-- C1: two samples that both reach target accuracy before the
minimum-duration deadline (10 m at t=1000 ms and 9 m at t=2000 ms, with
`minDurationMs` = 3000 ms) each schedule a deferred finalize, and both
deferred timers fire: `finishWithLocation` is invoked twice in one attempt,
not exactly once — `cleanup` cannot cancel the deferred timers because they
are not stored in `timeoutRef`.  This holds for every distance function. -/
theorem finishWithLocation_invoked_twice_on_early_target_samples :
    ∀ dist : LocationResult → ℚ,
      (runAcquisition true dist [(1000, sample10), (2000, sample9)]).finishCount = 2 ∧
      (runAcquisition true dist [(1000, sample10), (2000, sample9)]).status =
        Status.success := by
  intro dist
  exact ⟨rfl, rfl⟩

/-- C2: with samples of accuracy 25 m (t=1 s) and 20 m (t=5 s) and nothing
reaching target accuracy, the max-wait handler fires at 30 s having read
the closure-captured `bestLocation` (still `none`), so the attempt reports
`NoFix` and never finalizes — even though the live state holds the 20 m
sample, which is within `ACCEPTABLE_ACCURACY`.  This holds for every
distance function. -/
theorem maxWait_handler_noFix_despite_acceptable_best :
    ∀ dist : LocationResult → ℚ,
      (runAcquisition true dist [(1000, sample25), (5000, sample20)]).errorsEmitted =
        [AcqError.noFix] ∧
      (runAcquisition true dist [(1000, sample25), (5000, sample20)]).finishCount = 0 ∧
      (runAcquisition true dist [(1000, sample25), (5000, sample20)]).bestLocation =
        some sample20 := by
  intro dist
  exact ⟨rfl, rfl, rfl⟩

/-- C3: whenever geofence validation is enabled (`skip = false`) and the
finalized sample's distance to the anchor exceeds `MAX_DISTANCE_METERS`,
`finishWithLocation` ends in the `error` status, emits an out-of-geofence
error carrying the measured distance, releases the subscription, and does
not store the sample for the success callback (`bestLocation`, the value
`handleContinue` would deliver to `onLocationAcquired`, is unchanged). -/
theorem finishWithLocation_out_of_geofence :
    ∀ (dist : LocationResult → ℚ) (c : AcqState) (loc : LocationResult),
      dist loc > MAX_DISTANCE_METERS →
      (finishWithLocation false dist c loc).status = Status.error ∧
      (finishWithLocation false dist c loc).errorsEmitted =
        c.errorsEmitted ++ [AcqError.outOfGeofence (dist loc)] ∧
      (finishWithLocation false dist c loc).bestLocation = c.bestLocation ∧
      (finishWithLocation false dist c loc).watchActive = false := by
  intro dist c loc h
  simp [finishWithLocation, cleanup, h]

/-- C3 witness: a finalized sample 800 m from the anchor with validation
enabled yields the out-of-geofence error carrying 800. -/
theorem finishWithLocation_out_of_geofence_witness :
    dist800 geoSample > MAX_DISTANCE_METERS ∧
    ((finishWithLocation false dist800 initAcq geoSample).status = Status.error ∧
     (finishWithLocation false dist800 initAcq geoSample).errorsEmitted =
       initAcq.errorsEmitted ++ [AcqError.outOfGeofence (dist800 geoSample)] ∧
     (finishWithLocation false dist800 initAcq geoSample).bestLocation =
       initAcq.bestLocation ∧
     (finishWithLocation false dist800 initAcq geoSample).watchActive = false) :=
  ⟨by decide, finishWithLocation_out_of_geofence dist800 initAcq geoSample (by decide)⟩

/-- C8: the timeout error exit does not release the sensor subscription.
With a single 20 m sample, the attempt exits at 30 s in the `error` status
yet `watchRef` still holds the subscription; and with a further sample
arriving after the exit (t=31 s, 10 m), the still-installed watch callback
fires and even finalizes the attempt into `success` after it had already
exited with `NoFix`.  This holds for every distance function. -/
theorem watch_subscription_leaks_after_timeout_error :
    ∀ dist : LocationResult → ℚ,
      ((runAcquisition true dist [(1000, sample20)]).status = Status.error ∧
       (runAcquisition true dist [(1000, sample20)]).watchActive = true) ∧
      ((runAcquisition true dist [(1000, sample20), (31000, sample10)]).errorsEmitted =
         [AcqError.noFix] ∧
       (runAcquisition true dist [(1000, sample20), (31000, sample10)]).finishCount = 1 ∧
       (runAcquisition true dist [(1000, sample20), (31000, sample10)]).status =
         Status.success) := by
  intro dist
  exact ⟨⟨rfl, rfl⟩, ⟨rfl, rfl, rfl⟩⟩

/-! ## Part 3: the haversine distance (getDistanceMeters)

JS floating-point trigonometry is modelled over the real numbers.
`Math.atan2` is `atan2` below (the usual quadrant-corrected arctangent,
with `atan2 0 0 = 0` as in JS). -/

/-- The `Math.atan2(y, x)` function over ℝ. -/
noncomputable def atan2 (y x : ℝ) : ℝ :=
  if 0 < x then Real.arctan (y / x)
  else if x < 0 then
    (if 0 ≤ y then Real.arctan (y / x) + Real.pi
     else Real.arctan (y / x) - Real.pi)
  else
    (if 0 < y then Real.pi / 2
     else if y < 0 then -(Real.pi / 2)
     else 0)

/-- The local `a` of `getDistanceMeters`:
`sin(dLat/2)^2 + cos(lat1)cos(lat2)sin(dLon/2)^2` with angles converted to
radians exactly as in the source. -/
noncomputable def haversineTerm (lat1 lon1 lat2 lon2 : ℝ) : ℝ :=
  let dLat := (lat2 - lat1) * Real.pi / 180
  let dLon := (lon2 - lon1) * Real.pi / 180
  Real.sin (dLat / 2) * Real.sin (dLat / 2) +
    Real.cos (lat1 * Real.pi / 180) * Real.cos (lat2 * Real.pi / 180) *
      Real.sin (dLon / 2) * Real.sin (dLon / 2)

/-- The `getDistanceMeters` haversine distance of the source
(`R = 6371000`; `c = 2 * atan2(sqrt(a), sqrt(1 - a))`; result `R * c`). -/
noncomputable def getDistanceMeters (lat1 lon1 lat2 lon2 : ℝ) : ℝ :=
  let R : ℝ := 6371000
  let a := haversineTerm lat1 lon1 lat2 lon2
  let c := 2 * atan2 (Real.sqrt a) (Real.sqrt (1 - a))
  R * c

/-- The haversine `a`-term vanishes on identical points. -/
theorem haversineTerm_self (lat lon : ℝ) : haversineTerm lat lon lat lon = 0 := by
  simp only [haversineTerm]
  rw [show (lat - lat) * Real.pi / 180 / 2 = 0 by ring,
      show (lon - lon) * Real.pi / 180 / 2 = 0 by ring, Real.sin_zero]
  ring

/-- The haversine `a`-term is symmetric in its two points. -/
theorem haversineTerm_symm (lat1 lon1 lat2 lon2 : ℝ) :
    haversineTerm lat1 lon1 lat2 lon2 = haversineTerm lat2 lon2 lat1 lon1 := by
  simp only [haversineTerm]
  rw [show (lat1 - lat2) * Real.pi / 180 / 2 = -((lat2 - lat1) * Real.pi / 180 / 2) by ring,
      show (lon1 - lon2) * Real.pi / 180 / 2 = -((lon2 - lon1) * Real.pi / 180 / 2) by ring]
  simp only [Real.sin_neg]
  ring

/-- C9: the haversine `getDistanceMeters` (Earth radius 6371000 m) returns
zero for identical points and is symmetric in its two points. -/
theorem getDistanceMeters_zero_and_symm :
    (∀ lat lon : ℝ, getDistanceMeters lat lon lat lon = 0) ∧
    (∀ lat1 lon1 lat2 lon2 : ℝ,
      getDistanceMeters lat1 lon1 lat2 lon2 = getDistanceMeters lat2 lon2 lat1 lon1) := by
  constructor
  · intro lat lon
    simp only [getDistanceMeters, haversineTerm_self]
    rw [show (1 : ℝ) - 0 = 1 by ring, Real.sqrt_zero, Real.sqrt_one]
    rw [show atan2 0 1 = Real.arctan (0 / 1) from if_pos one_pos]
    simp [Real.arctan_zero]
  · intro lat1 lon1 lat2 lon2
    simp only [getDistanceMeters, haversineTerm_symm lat1 lon1 lat2 lon2]

end BHQueue
